import Mathlib

/-!
Verification of the virtio networking subsystem (in-VMM virtio-net device,
vhost-user-net backend, vhost-user-fs slave-request handler) against its
natural-language specification.

The Rust sources are shallowly embedded: machine integers (`u64`, `u16`) are
`Nat` with explicit `2 ^ 64` bounds where overflow matters, fallible code
returns `Except`, and the syscalls issued by the slave-request handler are
recorded as an explicit trace (syscalls are assumed to succeed; the trace
records which syscalls are attempted, in order).
-/

namespace VhostUserFs

/-- `2 ^ 64`: the modulus of the `u64` arithmetic used by the slave-request
handler. -/
def u64Mod : Nat := 2 ^ 64

/-- Rust `u64::checked_add` on values below `u64Mod`: `none` exactly when the
mathematical sum does not fit in a `u64`. -/
def checkedAdd (a b : Nat) : Option Nat :=
  if a + b < u64Mod then some (a + b) else none

/-- Rust `u64::checked_sub`: `none` exactly when the subtraction would
underflow. -/
def checkedSub (a b : Nat) : Option Nat :=
  if b ≤ a then some (a - b) else none

/-- One index `i` of a `VhostUserFSSlaveMsg`: the message's fixed-size arrays
`cache_offset`, `fd_offset`, `len` and `flags` are represented per-index, and
a message is a list of such entries. `flags_bits` is `fs.flags[i].bits()`;
`flags_map_w` is whether `fs.flags[i]` contains `MAP_W`. -/
structure FsSlaveEntry where
  cache_offset : Nat
  fd_offset : Nat
  len : Nat
  flags_bits : Nat
  flags_map_w : Bool
deriving Repr, DecidableEq

/-- The fields of `SlaveReqHandler` (fs.rs) that the request handlers read:
the guest-physical base and size of the shared cache window and the host
virtual address it is mapped at. -/
structure SlaveReqHandler where
  cache_offset : Nat
  cache_size : Nat
  mmap_cache_addr : Nat
deriving Repr, DecidableEq

/-- `SlaveReqHandler::is_req_valid` (fs.rs lines 48-55): the request range
must not overflow and must lie inside the cache window. -/
def SlaveReqHandler.is_req_valid (h : SlaveReqHandler) (offset len : Nat) : Bool :=
  match checkedAdd offset len with
  | none => false
  | some e => !(decide (offset ≥ h.cache_size) || decide (e > h.cache_size))

/-- A syscall attempted by the slave-request handler.
`mmap_shared addr len prot fd off` is
`mmap(addr, len, flags.bits(), MAP_SHARED | MAP_FIXED, fd, off)`;
`mmap_anon addr len` is
`mmap(addr, len, PROT_NONE, MAP_ANONYMOUS | MAP_PRIVATE | MAP_FIXED, -1, 0)`. -/
inductive Syscall where
  | mmap_shared (addr len prot fd fd_offset : Nat)
  | mmap_anon (addr len : Nat)
  | msync (addr len : Nat)
  | close (fd : Nat)
  | pread (fd ptr len foffset : Nat)
  | pwrite (fd ptr len foffset : Nat)
deriving Repr, DecidableEq

/-- Errors returned by the slave-request handlers: `einval` and `efault` are
the explicit `io::Error::from_raw_os_error` returns, `eof` is the
`UnexpectedEof` error of `fs_slave_io`, `osError` stands for
`io::Error::last_os_error` after a failed syscall. -/
inductive FsErr where
  | einval
  | efault
  | eof
  | osError
deriving Repr, DecidableEq

/-- `SlaveReqHandler::fs_slave_map` (fs.rs lines 64-103). For each entry:
a zero length is skipped, an invalid range returns EINVAL for the whole
request, otherwise the entry is mapped shared and fixed at
`mmap_cache_addr + offset` and — as in the source — the incoming `fd` is
closed inside the loop, once per mapped entry. -/
def fs_slave_map (h : SlaveReqHandler) (fd : Nat) :
    List FsSlaveEntry → List Syscall × Except FsErr Nat
  | [] => ([], .ok 0)
  | e :: rest =>
    if e.len = 0 then fs_slave_map h fd rest
    else if !h.is_req_valid e.cache_offset e.len then ([], .error .einval)
    else
      let addr := h.mmap_cache_addr + e.cache_offset
      let (tr, r) := fs_slave_map h fd rest
      (.mmap_shared addr e.len e.flags_bits fd e.fd_offset :: .close fd :: tr, r)

/-- `SlaveReqHandler::fs_slave_unmap` (fs.rs lines 105-144). A length of
`0xffff_ffff_ffff_ffff` is replaced by `cache_size` before validation; each
validated range is overwritten with an anonymous private fixed PROT_NONE
mapping. -/
def fs_slave_unmap (h : SlaveReqHandler) :
    List FsSlaveEntry → List Syscall × Except FsErr Nat
  | [] => ([], .ok 0)
  | e :: rest =>
    if e.len = 0 then fs_slave_unmap h rest
    else
      let len := if e.len = 0xffffffffffffffff then h.cache_size else e.len
      if !h.is_req_valid e.cache_offset len then ([], .error .einval)
      else
        let (tr, r) := fs_slave_unmap h rest
        (.mmap_anon (h.mmap_cache_addr + e.cache_offset) len :: tr, r)

/-- `SlaveReqHandler::fs_slave_sync` (fs.rs lines 146-171): msync(MS_SYNC)
each validated range. -/
def fs_slave_sync (h : SlaveReqHandler) :
    List FsSlaveEntry → List Syscall × Except FsErr Nat
  | [] => ([], .ok 0)
  | e :: rest =>
    if e.len = 0 then fs_slave_sync h rest
    else if !h.is_req_valid e.cache_offset e.len then ([], .error .einval)
    else
      let (tr, r) := fs_slave_sync h rest
      (.msync (h.mmap_cache_addr + e.cache_offset) e.len :: tr, r)

/-- Host-pointer resolution of one `fs_slave_io` entry (fs.rs lines 183-213):
if the guest physical address `gpa` lies in the cache window, translate it to
`mmap_cache_addr + (gpa - cache_offset)`, rejecting with EFAULT when
`gpa + len` overflows or reaches past (or exactly to) the end of the window;
otherwise translate through guest memory (`get_host_address`, modelled by the
partial map `mem`), with EFAULT on failure. -/
def resolve_ptr (h : SlaveReqHandler) (mem : Nat → Option Nat) (e : FsSlaveEntry) :
    Except FsErr Nat :=
  let gpa := e.cache_offset
  let cache_end := h.cache_offset + h.cache_size
  if h.cache_offset ≤ gpa ∧ gpa < cache_end then
    match checkedSub gpa h.cache_offset with
    | none => .error .efault
    | some offset =>
      match checkedAdd gpa e.len with
      | none => .error .efault
      | some endv =>
        if endv ≥ cache_end then .error .efault
        else .ok (h.mmap_cache_addr + offset)
  else
    match mem gpa with
    | none => .error .efault
    | some hostAddr => .ok hostAddr

/-- The `while len > 0` transfer loop of `fs_slave_io` (fs.rs lines 215-241).
`rets k` is the return value of the `k`-th `pread64`/`pwrite64` call: negative
means a syscall error, zero means EOF, positive is the number of bytes
transferred (the kernel never returns more than requested, so the remaining
length is reduced with truncated subtraction). `done` is the running total of
transferred bytes. -/
def io_loop (rets : Nat → Int) (k : Nat) (isWrite : Bool) (fd ptr foffset len done : Nat) :
    List Syscall × Except FsErr Nat :=
  if hlen : len = 0 then ([], .ok done)
  else
    let r := rets k
    let sc := if isWrite then Syscall.pwrite fd ptr len foffset
              else Syscall.pread fd ptr len foffset
    if hneg : r < 0 then ([sc], .error .osError)
    else if hzero : r = 0 then ([sc], .error .eof)
    else
      let rn := r.toNat
      let (tr, res) := io_loop rets (k + 1) isWrite fd (ptr + rn) (foffset + rn)
        (len - rn) (done + rn)
      (sc :: tr, res)
termination_by len
decreasing_by
  have h1 : 0 < r := by omega
  have h2 : 0 < r.toNat := by omega
  omega

/-- The entry loop of `SlaveReqHandler::fs_slave_io` (fs.rs lines 173-250):
zero-length entries are skipped before any other processing, each remaining
entry resolves its host pointer and runs the transfer loop, and a single
`close(fd)` is issued after the loop over all entries. `i` is the entry index
(used to index the per-entry syscall-return oracle) and `done` the
accumulated byte count. -/
def fs_slave_io_go (h : SlaveReqHandler) (mem : Nat → Option Nat)
    (rets : Nat → Nat → Int) (fd : Nat) :
    List FsSlaveEntry → Nat → Nat → List Syscall × Except FsErr Nat
  | [], _, done => ([Syscall.close fd], .ok done)
  | e :: rest, i, done =>
    if e.len = 0 then fs_slave_io_go h mem rets fd rest (i + 1) done
    else
      match resolve_ptr h mem e with
      | .error err => ([], .error err)
      | .ok ptr =>
        match io_loop (rets i) 0 e.flags_map_w fd ptr e.fd_offset e.len done with
        | (tr, .error err) => (tr, .error err)
        | (tr, .ok done2) =>
          let (tr2, r) := fs_slave_io_go h mem rets fd rest (i + 1) done2
          (tr ++ tr2, r)

/-- `SlaveReqHandler::fs_slave_io` (fs.rs lines 173-250). -/
def fs_slave_io (h : SlaveReqHandler) (mem : Nat → Option Nat)
    (rets : Nat → Nat → Int) (fd : Nat) (entries : List FsSlaveEntry) :
    List Syscall × Except FsErr Nat :=
  fs_slave_io_go h mem rets fd entries 0 0

/-- The length actually validated by `fs_slave_unmap` for a non-zero entry:
the all-ones sentinel is replaced by the whole window size. -/
def effUnmapLen (h : SlaveReqHandler) (len : Nat) : Nat :=
  if len = 0xffffffffffffffff then h.cache_size else len

/-- Entries that `fs_slave_map`/`fs_slave_sync` process without error:
skipped (zero length) or validated. -/
def entriesOk (h : SlaveReqHandler) (l : List FsSlaveEntry) : Prop :=
  ∀ e ∈ l, e.len = 0 ∨ h.is_req_valid e.cache_offset e.len = true

/-- Entries that `fs_slave_unmap` processes without error. -/
def entriesOkUnmap (h : SlaveReqHandler) (l : List FsSlaveEntry) : Prop :=
  ∀ e ∈ l, e.len = 0 ∨ h.is_req_valid e.cache_offset (effUnmapLen h e.len) = true

theorem is_req_valid_iff (h : SlaveReqHandler) (off len : Nat) :
    h.is_req_valid off len = true ↔
      off + len < u64Mod ∧ off < h.cache_size ∧ off + len ≤ h.cache_size := by
  unfold SlaveReqHandler.is_req_valid checkedAdd
  by_cases hlt : off + len < u64Mod
  · simp only [if_pos hlt]
    simp only [Bool.not_eq_true']
    constructor
    · intro hb
      simp only [Bool.or_eq_false_iff, decide_eq_false_iff_not, not_le, not_lt] at hb
      omega
    · intro hb
      simp only [Bool.or_eq_false_iff, decide_eq_false_iff_not, not_le, not_lt]
      omega
  · simp only [if_neg hlt]
    constructor
    · intro hb; cases hb
    · intro hb; omega

theorem fs_slave_map_invalid_entry (h : SlaveReqHandler) (fd : Nat)
    (e : FsSlaveEntry) (post : List FsSlaveEntry)
    (hnz : e.len ≠ 0) (hbad : h.is_req_valid e.cache_offset e.len = false) :
    ∀ pre : List FsSlaveEntry, entriesOk h pre →
      fs_slave_map h fd (pre ++ e :: post) = ((fs_slave_map h fd pre).1, .error .einval)
  | [], _ => by
    simp [fs_slave_map, hnz, hbad]
  | p :: pre, hok => by
    have hp := hok p (List.mem_cons_self p pre)
    have hpre : entriesOk h pre := fun x hx => hok x (List.mem_cons_of_mem p hx)
    have ih := fs_slave_map_invalid_entry h fd e post hnz hbad pre hpre
    by_cases hz : p.len = 0
    · simpa [fs_slave_map, hz] using ih
    · rcases hp with hp | hp
      · exact absurd hp hz
      · simp [fs_slave_map, hz, hp, ih]

theorem fs_slave_sync_invalid_entry (h : SlaveReqHandler)
    (e : FsSlaveEntry) (post : List FsSlaveEntry)
    (hnz : e.len ≠ 0) (hbad : h.is_req_valid e.cache_offset e.len = false) :
    ∀ pre : List FsSlaveEntry, entriesOk h pre →
      fs_slave_sync h (pre ++ e :: post) = ((fs_slave_sync h pre).1, .error .einval)
  | [], _ => by
    simp [fs_slave_sync, hnz, hbad]
  | p :: pre, hok => by
    have hp := hok p (List.mem_cons_self p pre)
    have hpre : entriesOk h pre := fun x hx => hok x (List.mem_cons_of_mem p hx)
    have ih := fs_slave_sync_invalid_entry h e post hnz hbad pre hpre
    by_cases hz : p.len = 0
    · simpa [fs_slave_sync, hz] using ih
    · rcases hp with hp | hp
      · exact absurd hp hz
      · simp [fs_slave_sync, hz, hp, ih]

theorem fs_slave_unmap_invalid_entry (h : SlaveReqHandler)
    (e : FsSlaveEntry) (post : List FsSlaveEntry)
    (hnz : e.len ≠ 0)
    (hbad : h.is_req_valid e.cache_offset (effUnmapLen h e.len) = false) :
    ∀ pre : List FsSlaveEntry, entriesOkUnmap h pre →
      fs_slave_unmap h (pre ++ e :: post) = ((fs_slave_unmap h pre).1, .error .einval)
  | [], _ => by
    rw [effUnmapLen] at hbad
    simp [fs_slave_unmap, hnz, hbad]
  | p :: pre, hok => by
    have hp := hok p (List.mem_cons_self p pre)
    have hpre : entriesOkUnmap h pre := fun x hx => hok x (List.mem_cons_of_mem p hx)
    have ih := fs_slave_unmap_invalid_entry h e post hnz hbad pre hpre
    by_cases hz : p.len = 0
    · simpa [fs_slave_unmap, hz] using ih
    · rcases hp with hp | hp
      · exact absurd hp hz
      · rw [effUnmapLen] at hp
        simp [fs_slave_unmap, hz, hp, ih]

theorem fs_slave_map_all_zero (h : SlaveReqHandler) (fd : Nat) :
    ∀ l : List FsSlaveEntry, (∀ x ∈ l, x.len = 0) → fs_slave_map h fd l = ([], .ok 0)
  | [], _ => rfl
  | e :: rest, hall => by
    have he := hall e (List.mem_cons_self e rest)
    have ih := fs_slave_map_all_zero h fd rest
      (fun x hx => hall x (List.mem_cons_of_mem e hx))
    simp [fs_slave_map, he, ih]

theorem fs_slave_unmap_all_zero (h : SlaveReqHandler) :
    ∀ l : List FsSlaveEntry, (∀ x ∈ l, x.len = 0) → fs_slave_unmap h l = ([], .ok 0)
  | [], _ => rfl
  | e :: rest, hall => by
    have he := hall e (List.mem_cons_self e rest)
    have ih := fs_slave_unmap_all_zero h rest
      (fun x hx => hall x (List.mem_cons_of_mem e hx))
    simp [fs_slave_unmap, he, ih]

theorem fs_slave_sync_all_zero (h : SlaveReqHandler) :
    ∀ l : List FsSlaveEntry, (∀ x ∈ l, x.len = 0) → fs_slave_sync h l = ([], .ok 0)
  | [], _ => rfl
  | e :: rest, hall => by
    have he := hall e (List.mem_cons_self e rest)
    have ih := fs_slave_sync_all_zero h rest
      (fun x hx => hall x (List.mem_cons_of_mem e hx))
    simp [fs_slave_sync, he, ih]

theorem fs_slave_io_go_all_zero (h : SlaveReqHandler) (mem : Nat → Option Nat)
    (rets : Nat → Nat → Int) (fd : Nat) :
    ∀ (l : List FsSlaveEntry) (i done : Nat), (∀ x ∈ l, x.len = 0) →
      fs_slave_io_go h mem rets fd l i done = ([Syscall.close fd], .ok done)
  | [], _, _, _ => rfl
  | e :: rest, i, done, hall => by
    have he := hall e (List.mem_cons_self e rest)
    have ih := fs_slave_io_go_all_zero h mem rets fd rest (i + 1) done
      (fun x hx => hall x (List.mem_cons_of_mem e hx))
    simp [fs_slave_io_go, he, ih]

/-- C1, amended: for every entry `(offset, len)` with `len > 0`,
`is_req_valid` holds exactly when `offset + len` does not overflow a `u64`,
`offset < cache_size` and `offset + len ≤ cache_size`; whenever the length
actually validated — the entry's `len` for map and sync, the effective length
(with the all-ones sentinel replaced by `cache_size`) for unmap — fails this
predicate, the whole request returns EINVAL, and no mmap or msync syscall is
attempted for that entry or any later one (the trace is exactly that of the
preceding entries). -/
theorem c1_validity_einval
    (h : SlaveReqHandler) (fd : Nat) (pre post : List FsSlaveEntry) (e : FsSlaveEntry)
    (off len : Nat) (hpre : entriesOk h pre) (hpreU : entriesOkUnmap h pre)
    (hnz : e.len ≠ 0) :
    (h.is_req_valid off len = true ↔
      off + len < u64Mod ∧ off < h.cache_size ∧ off + len ≤ h.cache_size)
    ∧ (h.is_req_valid e.cache_offset e.len = false →
        fs_slave_map h fd (pre ++ e :: post)
          = ((fs_slave_map h fd pre).1, .error .einval)
        ∧ fs_slave_sync h (pre ++ e :: post)
          = ((fs_slave_sync h pre).1, .error .einval))
    ∧ (h.is_req_valid e.cache_offset (effUnmapLen h e.len) = false →
        fs_slave_unmap h (pre ++ e :: post)
          = ((fs_slave_unmap h pre).1, .error .einval)) := by
  refine ⟨is_req_valid_iff h off len, fun hbad => ⟨?_, ?_⟩, fun hbad => ?_⟩
  · exact fs_slave_map_invalid_entry h fd e post hnz hbad pre hpre
  · exact fs_slave_sync_invalid_entry h e post hnz hbad pre hpre
  · exact fs_slave_unmap_invalid_entry h e post hnz hbad pre hpreU

/-- C1 witness: the amended theorem applied at a cache window of size 4096
and the out-of-range entry `(offset 4000, len 200)`, preceded by one valid
entry `(offset 0, len 8)`. -/
theorem c1_validity_einval_witness :
    ((SlaveReqHandler.is_req_valid ⟨0, 4096, 65536⟩ 4000 200 = true ↔
      4000 + 200 < u64Mod ∧ 4000 < 4096 ∧ 4000 + 200 ≤ 4096)
    ∧ (fs_slave_map ⟨0, 4096, 65536⟩ 9 ([⟨0, 0, 8, 3, false⟩] ++ ⟨4000, 0, 200, 3, false⟩ :: [])
        = ((fs_slave_map ⟨0, 4096, 65536⟩ 9 [⟨0, 0, 8, 3, false⟩]).1, .error .einval)
      ∧ fs_slave_sync ⟨0, 4096, 65536⟩ ([⟨0, 0, 8, 3, false⟩] ++ ⟨4000, 0, 200, 3, false⟩ :: [])
        = ((fs_slave_sync ⟨0, 4096, 65536⟩ [⟨0, 0, 8, 3, false⟩]).1, .error .einval))
    ∧ fs_slave_unmap ⟨0, 4096, 65536⟩ ([⟨0, 0, 8, 3, false⟩] ++ ⟨4000, 0, 200, 3, false⟩ :: [])
        = ((fs_slave_unmap ⟨0, 4096, 65536⟩ [⟨0, 0, 8, 3, false⟩]).1, .error .einval)) := by
  have hthm := c1_validity_einval ⟨0, 4096, 65536⟩ 9 [⟨0, 0, 8, 3, false⟩] []
    ⟨4000, 0, 200, 3, false⟩ 4000 200
    (by intro x hx; simp at hx; subst hx; right; decide)
    (by intro x hx; simp at hx; subst hx; right; decide)
    (by decide)
  exact ⟨hthm.1, hthm.2.1 (by decide), hthm.2.2 (by decide)⟩

/-- C1 counterexample (claim as stated): with a cache window of size 4096,
the unmap entry `(offset 0, len 0xffff_ffff_ffff_ffff)` has `len > 0` and
fails `valid(offset, len)` on its literal fields, yet the request succeeds
and an mmap is attempted — the sentinel length is rewritten to `cache_size`
before validation. -/
theorem c1_counterexample :
    SlaveReqHandler.is_req_valid ⟨0, 4096, 65536⟩ 0 0xffffffffffffffff = false
    ∧ fs_slave_unmap ⟨0, 4096, 65536⟩ [⟨0, 0, 0xffffffffffffffff, 0, false⟩]
        = ([Syscall.mmap_anon 65536 4096], .ok 0) := by
  exact ⟨by decide, by rfl⟩

/-- C5: at a map request with two valid non-zero entries, the handler closes
the incoming fd inside the per-entry loop — once per mapped entry, with the
first close issued before the second entry's mmap — instead of once at the
end of the request: the syscall trace contains `close fd` twice. -/
theorem c5_map_closes_fd_per_entry :
    fs_slave_map ⟨0, 8192, 65536⟩ 7
        [⟨0, 0, 4096, 3, false⟩, ⟨4096, 4096, 4096, 3, false⟩]
      = ([.mmap_shared 65536 4096 3 7 0, .close 7,
          .mmap_shared 69632 4096 3 7 4096, .close 7], .ok 0)
    ∧ (fs_slave_map ⟨0, 8192, 65536⟩ 7
        [⟨0, 0, 4096, 3, false⟩, ⟨4096, 4096, 4096, 3, false⟩]).1.count
        (Syscall.close 7) = 2 := by
  exact ⟨by rfl, by rfl⟩

/-- C9: an `fs_slave_io` entry whose guest physical address lies inside the
cache window is rejected with EFAULT whenever `gpa + len` reaches at least
the end of the window — an entry ending exactly at the window end is
rejected — even though `is_req_valid` (used by map, unmap and sync) accepts
a range ending exactly at `cache_size`. -/
theorem c9_io_window_end_efault
    (h : SlaveReqHandler) (mem : Nat → Option Nat) (rets : Nat → Nat → Int)
    (fd : Nat) (e : FsSlaveEntry) (rest : List FsSlaveEntry) (i done : Nat)
    (hnz : e.len ≠ 0)
    (hlo : h.cache_offset ≤ e.cache_offset)
    (hhi : e.cache_offset < h.cache_offset + h.cache_size)
    (hend : e.cache_offset + e.len ≥ h.cache_offset + h.cache_size) :
    fs_slave_io_go h mem rets fd (e :: rest) i done = ([], .error .efault)
    ∧ ∀ (h2 : SlaveReqHandler) (off len : Nat),
        off < h2.cache_size → off + len = h2.cache_size → h2.cache_size < u64Mod →
        h2.is_req_valid off len = true := by
  constructor
  · have hres : resolve_ptr h mem e = .error .efault := by
      unfold resolve_ptr checkedSub checkedAdd
      rw [if_pos ⟨hlo, hhi⟩, if_pos hlo]
      by_cases hov : e.cache_offset + e.len < u64Mod
      · simp [hov, hend]
      · simp [hov]
    simp [fs_slave_io_go, hnz, hres]
  · intro h2 off len hooff hsum hcs
    rw [is_req_valid_iff]
    omega

/-- C9 witness: window `[0, 4096)`, entry `(gpa 4000, len 96)` ending exactly
at the window end is rejected with EFAULT by `fs_slave_io`, while
`is_req_valid` accepts `(offset 4000, len 96)`. -/
theorem c9_io_window_end_efault_witness :
    fs_slave_io_go ⟨0, 4096, 65536⟩ (fun _ => none) (fun _ _ => 1) 7
        [⟨4000, 0, 96, 0, false⟩] 0 0 = ([], .error .efault)
    ∧ ∀ (h2 : SlaveReqHandler) (off len : Nat),
        off < h2.cache_size → off + len = h2.cache_size → h2.cache_size < u64Mod →
        h2.is_req_valid off len = true := by
  exact c9_io_window_end_efault ⟨0, 4096, 65536⟩ (fun _ => none) (fun _ _ => 1) 7
    ⟨4000, 0, 96, 0, false⟩ [] 0 0 (by decide) (by decide) (by decide) (by decide)

/-- C10: a zero-length entry is skipped before any validity check in all four
slave operations — prepending it to a request leaves the result unchanged,
whatever its offset — and a request whose entries all have `len = 0` succeeds
(`Ok`) without attempting any mmap, msync, pread or pwrite syscall
(`fs_slave_io` still issues its single final `close`). -/
theorem c10_zero_len_skipped
    (h : SlaveReqHandler) (mem : Nat → Option Nat) (rets : Nat → Nat → Int)
    (fd i done : Nat) (e : FsSlaveEntry) (rest entries : List FsSlaveEntry)
    (hz : e.len = 0) (hall : ∀ x ∈ entries, x.len = 0) :
    fs_slave_map h fd (e :: rest) = fs_slave_map h fd rest
    ∧ fs_slave_unmap h (e :: rest) = fs_slave_unmap h rest
    ∧ fs_slave_sync h (e :: rest) = fs_slave_sync h rest
    ∧ fs_slave_io_go h mem rets fd (e :: rest) i done
        = fs_slave_io_go h mem rets fd rest (i + 1) done
    ∧ fs_slave_map h fd entries = ([], .ok 0)
    ∧ fs_slave_unmap h entries = ([], .ok 0)
    ∧ fs_slave_sync h entries = ([], .ok 0)
    ∧ fs_slave_io h mem rets fd entries = ([Syscall.close fd], .ok 0) := by
  refine ⟨by simp [fs_slave_map, hz], by simp [fs_slave_unmap, hz],
    by simp [fs_slave_sync, hz], by simp [fs_slave_io_go, hz],
    fs_slave_map_all_zero h fd entries hall,
    fs_slave_unmap_all_zero h entries hall,
    fs_slave_sync_all_zero h entries hall, ?_⟩
  unfold fs_slave_io
  exact fs_slave_io_go_all_zero h mem rets fd entries 0 0 hall

/-- C10 witness: a request of two zero-length entries with overflow-inducing
offsets succeeds in all four operations with no mmap, msync or transfer
syscall. -/
theorem c10_zero_len_skipped_witness :
    fs_slave_map ⟨0, 4096, 65536⟩ 7
        [⟨0xffffffffffffffff, 0, 0, 0, false⟩, ⟨999999, 0, 0, 0, false⟩]
      = fs_slave_map ⟨0, 4096, 65536⟩ 7 [⟨999999, 0, 0, 0, false⟩]
    ∧ fs_slave_unmap ⟨0, 4096, 65536⟩
        [⟨0xffffffffffffffff, 0, 0, 0, false⟩, ⟨999999, 0, 0, 0, false⟩]
      = fs_slave_unmap ⟨0, 4096, 65536⟩ [⟨999999, 0, 0, 0, false⟩]
    ∧ fs_slave_sync ⟨0, 4096, 65536⟩
        [⟨0xffffffffffffffff, 0, 0, 0, false⟩, ⟨999999, 0, 0, 0, false⟩]
      = fs_slave_sync ⟨0, 4096, 65536⟩ [⟨999999, 0, 0, 0, false⟩]
    ∧ fs_slave_io_go ⟨0, 4096, 65536⟩ (fun _ => none) (fun _ _ => 1) 7
        [⟨0xffffffffffffffff, 0, 0, 0, false⟩, ⟨999999, 0, 0, 0, false⟩] 0 0
      = fs_slave_io_go ⟨0, 4096, 65536⟩ (fun _ => none) (fun _ _ => 1) 7
        [⟨999999, 0, 0, 0, false⟩] 1 0
    ∧ fs_slave_map ⟨0, 4096, 65536⟩ 7
        [⟨0xffffffffffffffff, 0, 0, 0, false⟩, ⟨999999, 0, 0, 0, false⟩] = ([], .ok 0)
    ∧ fs_slave_unmap ⟨0, 4096, 65536⟩
        [⟨0xffffffffffffffff, 0, 0, 0, false⟩, ⟨999999, 0, 0, 0, false⟩] = ([], .ok 0)
    ∧ fs_slave_sync ⟨0, 4096, 65536⟩
        [⟨0xffffffffffffffff, 0, 0, 0, false⟩, ⟨999999, 0, 0, 0, false⟩] = ([], .ok 0)
    ∧ fs_slave_io ⟨0, 4096, 65536⟩ (fun _ => none) (fun _ _ => 1) 7
        [⟨0xffffffffffffffff, 0, 0, 0, false⟩, ⟨999999, 0, 0, 0, false⟩]
      = ([Syscall.close 7], .ok 0) := by
  exact c10_zero_len_skipped ⟨0, 4096, 65536⟩ (fun _ => none) (fun _ _ => 1) 7 0 0
    ⟨0xffffffffffffffff, 0, 0, 0, false⟩ [⟨999999, 0, 0, 0, false⟩]
    [⟨0xffffffffffffffff, 0, 0, 0, false⟩, ⟨999999, 0, 0, 0, false⟩]
    (by decide) (by decide)

end VhostUserFs

namespace VirtioNet

/-- Why one `NetQueuePair::process_rx` call stopped draining the TAP.
Modelled from the spec (`net_util::NetQueuePair` is an external collaborator,
not among the sources): draining stops when the TAP returns EAGAIN (the TAP
is deregistered and `rx_desc_avail` cleared), when the RX queue has no free
descriptor (the TAP stays registered), or when the RX rate limiter becomes
blocked (the TAP is deregistered). -/
inductive RxStop where
  | tapEagain
  | queueFull
  | limiterBlocked
deriving Repr, DecidableEq

/-- Outcome of one `process_rx` call: why it stopped, and its boolean return
value. Modelled from the spec: with EVENT_IDX negotiated the return value is
whether the driver's `used_event` hint indicates that the queue interrupt
should be asserted for the entries just added. -/
structure RxOutcome where
  stop : RxStop
  signalNeeded : Bool
deriving Repr, DecidableEq

/-- The mutable flags of a net queue-pair worker (`NetQueuePair` fields
`rx_tap_listening` and `rx_desc_avail`, plus `NetEpollHandler.driver_awake`,
net.rs lines 67-79). -/
structure NetWorkerState where
  rx_tap_listening : Bool
  rx_desc_avail : Bool
  driver_awake : Bool
deriving Repr, DecidableEq

/-- Modelled from the spec: the state effect of `NetQueuePair::process_rx`
on the worker flags, by stop reason, paired with its boolean return value. -/
def process_rx (s : NetWorkerState) (o : RxOutcome) : NetWorkerState × Bool :=
  match o.stop with
  | .tapEagain => ({ s with rx_tap_listening := false, rx_desc_avail := false }, o.signalNeeded)
  | .queueFull => (s, o.signalNeeded)
  | .limiterBlocked => ({ s with rx_tap_listening := false }, o.signalNeeded)

/-- `NetEpollHandler::process_tx` (net.rs lines 120-133). `txResult` is the
value returned by `NetQueuePair::process_tx` (an error aborts the worker;
with EVENT_IDX negotiated `Ok b` carries whether the `used_event` hint
indicates notification — spec-modelled as for `process_rx`). The returned
`Bool` is whether `signal_used_queue` is invoked for the TX queue. -/
def NetEpollHandler.process_tx (s : NetWorkerState) (txResult : Except Unit Bool) :
    Except Unit (NetWorkerState × Bool) :=
  match txResult with
  | .error e => .error e
  | .ok b => .ok (s, b || !s.driver_awake)

/-- `NetEpollHandler::handle_rx_tap_event` (net.rs lines 154-167). The
returned `Bool` is whether `signal_used_queue` is invoked for the RX
queue. -/
def NetEpollHandler.handle_rx_tap_event (s : NetWorkerState)
    (rxResult : Except Unit RxOutcome) : Except Unit (NetWorkerState × Bool) :=
  match rxResult with
  | .error e => .error e
  | .ok o =>
    let (s2, b) := process_rx s o
    .ok (s2, b || !s.driver_awake)

/-- `NetEpollHandler::handle_rx_event` (net.rs lines 91-118): consume the
queue event, set `rx_desc_avail`, and if the TAP is not yet listening and
the RX rate limiter (`none` when absent, `some blocked` when configured) is
not blocked, register the TAP (the returned `Bool`) and set
`rx_tap_listening`. -/
def NetEpollHandler.handle_rx_event (s : NetWorkerState) (rx_rate_limiter : Option Bool) :
    NetWorkerState × Bool :=
  let s1 := { s with rx_desc_avail := true }
  let rate_limit_reached := rx_rate_limiter.elim false id
  if !s1.rx_tap_listening && !rate_limit_reached then
    ({ s1 with rx_tap_listening := true }, true)
  else (s1, false)

/-- One epoll event delivered to `NetEpollHandler::handle_event` (net.rs
lines 204-285), carrying the environment facts the handler consults:
the blocked state of a configured rate limiter (`none` = not configured),
the result of the inner `process_tx`/`process_rx` call, and for rate-limiter
events whether `event_handler()` succeeded. -/
inductive NetEvent where
  | rxQueue (rx_rate_limiter : Option Bool)
  | txQueue (tx_rate_limiter : Option Bool) (txResult : Except Unit Bool)
  | rxTap (rxResult : Except Unit RxOutcome)
  | rxLimiterWake (present : Bool) (handlerOk : Bool)
  | txLimiterWake (present : Bool) (handlerOk : Bool) (txResult : Except Unit Bool)
  | unknown (id : Nat)

/-- Observable actions of one `handle_event` dispatch: whether
`register_listener` was called on the TAP, whether the RX / TX used queue
was signalled, and whether the handler returned `true` (worker exit). -/
structure StepEffects where
  registeredTap : Bool
  signalledRx : Bool
  signalledTx : Bool
  exited : Bool
deriving Repr, DecidableEq

/-- No observable action. -/
def StepEffects.none : StepEffects := ⟨false, false, false, false⟩

/-- Worker exit (handler returned `true`). -/
def StepEffects.exit : StepEffects := ⟨false, false, false, true⟩

/-- `NetEpollHandler::handle_event` (net.rs lines 204-285): the `match` over
event ids. RX and TX queue kicks set `driver_awake` before processing; a TX
rate-limiter wake sets it after a successful `event_handler()`; the RX tap
and RX rate-limiter paths leave it unchanged. -/
def handle_event (s : NetWorkerState) (ev : NetEvent) : NetWorkerState × StepEffects :=
  match ev with
  | .rxQueue rx_rate_limiter =>
    let s1 := { s with driver_awake := true }
    let (s2, reg) := NetEpollHandler.handle_rx_event s1 rx_rate_limiter
    (s2, { StepEffects.none with registeredTap := reg })
  | .txQueue tx_rate_limiter txResult =>
    let s1 := { s with driver_awake := true }
    let rate_limit_reached := tx_rate_limiter.elim false id
    if rate_limit_reached then (s1, StepEffects.none)
    else
      match NetEpollHandler.process_tx s1 txResult with
      | .error _ => (s1, StepEffects.exit)
      | .ok (s2, sig) => (s2, { StepEffects.none with signalledTx := sig })
  | .rxTap rxResult =>
    match NetEpollHandler.handle_rx_tap_event s rxResult with
    | .error _ => (s, StepEffects.exit)
    | .ok (s2, sig) => (s2, { StepEffects.none with signalledRx := sig })
  | .rxLimiterWake present handlerOk =>
    if present then
      if handlerOk then
        if !s.rx_tap_listening && s.rx_desc_avail then
          ({ s with rx_tap_listening := true },
            { StepEffects.none with registeredTap := true })
        else (s, StepEffects.none)
      else (s, StepEffects.exit)
    else (s, StepEffects.exit)
  | .txLimiterWake present handlerOk txResult =>
    if present then
      if handlerOk then
        let s1 := { s with driver_awake := true }
        match NetEpollHandler.process_tx s1 txResult with
        | .error _ => (s1, StepEffects.exit)
        | .ok (s2, sig) => (s2, { StepEffects.none with signalledTx := sig })
      else (s, StepEffects.exit)
    else (s, StepEffects.exit)
  | .unknown _ => (s, StepEffects.exit)

/-- The TAP arming performed by `NetEpollHandler::run` before entering the
event loop (net.rs lines 184-193): if the RX queue already has available
descriptors, the TAP is registered and `rx_tap_listening` set. -/
def run_startup (s : NetWorkerState) (availDescs : Bool) : NetWorkerState :=
  if availDescs then { s with rx_tap_listening := true } else s

/-- A labelled transition of the worker: either the `run` startup arming or
one `handle_event` dispatch. -/
inductive NetLabel where
  | startup (availDescs : Bool)
  | event (ev : NetEvent)

/-- The state reached after one transition of the worker. -/
def netStep (s : NetWorkerState) (l : NetLabel) : NetWorkerState :=
  match l with
  | .startup availDescs => run_startup s availDescs
  | .event ev => (handle_event s ev).1

/-- C2: with EVENT_IDX negotiated, a TX processing round (and symmetrically
an RX tap round) asserts the used-queue interrupt exactly when the
`used_event` hint indicates notification or `driver_awake` is false; in
particular while `driver_awake = false` the worker always signals after
processing, whatever the hint. -/
theorem c2_event_idx_suppression (s : NetWorkerState) (hint : Bool) (o : RxOutcome) :
    NetEpollHandler.process_tx s (.ok hint) = .ok (s, hint || !s.driver_awake)
    ∧ ((hint || !s.driver_awake) = true ↔ (hint = true ∨ s.driver_awake = false))
    ∧ NetEpollHandler.handle_rx_tap_event s (.ok o)
        = .ok ((process_rx s o).1, o.signalNeeded || !s.driver_awake)
    ∧ ((o.signalNeeded || !s.driver_awake) = true
        ↔ (o.signalNeeded = true ∨ s.driver_awake = false))
    ∧ (s.driver_awake = false →
        (hint || !s.driver_awake) = true ∧ (o.signalNeeded || !s.driver_awake) = true) := by
  refine ⟨rfl, ?_, ?_, ?_, ?_⟩
  · cases hint <;> cases hb : s.driver_awake <;> simp [hb]
  · rcases o with ⟨stop, sig⟩; cases stop <;> rfl
  · cases hs : o.signalNeeded <;> cases hb : s.driver_awake <;> simp [hb]
  · intro hb; simp [hb]

/-- C2 witness: the suppression rule applied to a worker whose driver has not
yet signalled (`driver_awake = false`) with a hint of `false`: both queues
are still signalled. -/
theorem c2_event_idx_suppression_witness :
    NetEpollHandler.process_tx ⟨true, false, false⟩ (.ok false)
        = .ok (⟨true, false, false⟩, false || !false)
    ∧ ((false || !false) = true ↔ (false = true ∨ false = false))
    ∧ NetEpollHandler.handle_rx_tap_event ⟨true, false, false⟩ (.ok ⟨.queueFull, false⟩)
        = .ok ((process_rx ⟨true, false, false⟩ ⟨.queueFull, false⟩).1, false || !false)
    ∧ (false || !false) = true ∧ (false || !false) = true := by
  have hthm := c2_event_idx_suppression ⟨true, false, false⟩ false ⟨.queueFull, false⟩
  exact ⟨hthm.1, hthm.2.1, hthm.2.2.1, hthm.2.2.2.2 rfl⟩

/-- The claim C3 as stated: `rx_tap_listening` becomes true only on an RX
queue kick with the rate limiter absent or unblocked, or on an RX
rate-limiter wake with `rx_desc_avail` set. -/
def rxTapListeningOnlyKickOrWake : Prop :=
  ∀ (s : NetWorkerState) (l : NetLabel),
    s.rx_tap_listening = false → (netStep s l).rx_tap_listening = true →
      (∃ rl, l = .event (.rxQueue rl) ∧ rl.elim false id = false) ∨
      (∃ p ok, l = .event (.rxLimiterWake p ok) ∧ s.rx_desc_avail = true)

/-- C3 counterexample (claim as stated): `NetEpollHandler::run` arms the TAP
before entering the event loop when RX descriptors are already available, so
`rx_tap_listening` also transitions to true at worker startup, which is
neither an RX kick nor a rate-limiter wake. -/
theorem c3_counterexample : ¬ rxTapListeningOnlyKickOrWake := by
  intro hcl
  have := hcl ⟨false, false, false⟩ (.startup true) rfl rfl
  rcases this with ⟨rl, heq, _⟩ | ⟨p, ok, heq, _⟩ <;> exact absurd heq (by simp)

/-- C3, amended: `rx_tap_listening` transitions to true only on an RX queue
kick with the RX rate limiter absent or unblocked, on an RX rate-limiter
wake with `rx_desc_avail` true, or at worker startup when RX descriptors are
already available; it transitions to false only on a TAP-readable round in
which `process_rx` stops because the TAP returned EAGAIN or the RX limiter
became blocked. -/
theorem c3_rx_tap_listening_transitions (s : NetWorkerState) (l : NetLabel) :
    (s.rx_tap_listening = false → (netStep s l).rx_tap_listening = true →
      (∃ rl, l = .event (.rxQueue rl) ∧ rl.elim false id = false) ∨
      (∃ p ok, l = .event (.rxLimiterWake p ok) ∧ p = true ∧ ok = true
        ∧ s.rx_desc_avail = true) ∨
      l = .startup true)
    ∧ (s.rx_tap_listening = true → (netStep s l).rx_tap_listening = false →
      ∃ o, l = .event (.rxTap (.ok o))
        ∧ (o.stop = .tapEagain ∨ o.stop = .limiterBlocked)) := by
  constructor
  · intro h0 h1
    match l with
    | .startup a =>
      cases a
      · simp [netStep, run_startup, h0] at h1
      · exact Or.inr (Or.inr rfl)
    | .event (.rxQueue rl) =>
      refine Or.inl ⟨rl, rfl, ?_⟩
      by_cases hr : rl.elim false id = true
      · simp [netStep, handle_event, NetEpollHandler.handle_rx_event, h0, hr] at h1
      · simpa using hr
    | .event (.txQueue t txr) =>
      exfalso
      rcases txr with e | b <;>
        simp [netStep, handle_event, NetEpollHandler.process_tx, h0] at h1 <;>
        split at h1 <;> simp_all
    | .event (.rxTap rxr) =>
      exfalso
      rcases rxr with e | o
      · simp [netStep, handle_event, NetEpollHandler.handle_rx_tap_event, h0] at h1
      · rcases o with ⟨stop, sig⟩
        cases stop <;>
          simp [netStep, handle_event, NetEpollHandler.handle_rx_tap_event,
            process_rx, h0] at h1
    | .event (.rxLimiterWake p ok) =>
      refine Or.inr (Or.inl ⟨p, ok, rfl, ?_, ?_, ?_⟩) <;>
      · cases p <;> cases ok <;>
          simp_all [netStep, handle_event, h0] <;> split at h1 <;> simp_all
    | .event (.txLimiterWake p ok txr) =>
      exfalso
      cases p <;> cases ok <;> rcases txr with e | b <;>
        simp [netStep, handle_event, NetEpollHandler.process_tx, h0] at h1
    | .event (.unknown n) =>
      exfalso; simp [netStep, handle_event, h0] at h1
  · intro h0 h1
    match l with
    | .startup a =>
      exfalso; cases a <;> simp [netStep, run_startup, h0] at h1
    | .event (.rxQueue rl) =>
      exfalso
      rcases rl with _ | b <;>
        simp_all [netStep, handle_event, NetEpollHandler.handle_rx_event, h0]
    | .event (.txQueue t txr) =>
      exfalso
      rcases txr with e | b <;>
        simp [netStep, handle_event, NetEpollHandler.process_tx, h0] at h1 <;>
        split at h1 <;> simp_all
    | .event (.rxTap rxr) =>
      rcases rxr with e | o
      · exfalso
        simp [netStep, handle_event, NetEpollHandler.handle_rx_tap_event, h0] at h1
      · rcases o with ⟨stop, sig⟩
        cases stop
        · exact ⟨⟨.tapEagain, sig⟩, rfl, Or.inl rfl⟩
        · exfalso
          simp [netStep, handle_event, NetEpollHandler.handle_rx_tap_event,
            process_rx, h0] at h1
        · exact ⟨⟨.limiterBlocked, sig⟩, rfl, Or.inr rfl⟩
    | .event (.rxLimiterWake p ok) =>
      exfalso
      cases p <;> cases ok <;> simp_all [netStep, handle_event, h0]
    | .event (.txLimiterWake p ok txr) =>
      exfalso
      cases p <;> cases ok <;> rcases txr with e | b <;>
        simp [netStep, handle_event, NetEpollHandler.process_tx, h0] at h1
    | .event (.unknown n) =>
      exfalso; simp [netStep, handle_event, h0] at h1

/-- C3 witness: on an RX rate-limiter wake in a state with descriptors
available and the TAP not listening, the amended theorem yields the wake
disjunct; the transition indeed arms the TAP. -/
theorem c3_rx_tap_listening_transitions_witness :
    (netStep ⟨false, true, false⟩ (.event (.rxLimiterWake true true))).rx_tap_listening = true
    ∧ ((∃ rl, NetLabel.event (.rxLimiterWake true true) = .event (.rxQueue rl)
          ∧ rl.elim false id = false) ∨
       (∃ p ok, NetLabel.event (.rxLimiterWake true true) = .event (.rxLimiterWake p ok)
          ∧ p = true ∧ ok = true ∧ (⟨false, true, false⟩ : NetWorkerState).rx_desc_avail = true) ∨
       NetLabel.event (.rxLimiterWake true true) = .startup true) := by
  refine ⟨by decide, ?_⟩
  exact (c3_rx_tap_listening_transitions ⟨false, true, false⟩
    (.event (.rxLimiterWake true true))).1 (by decide) (by decide)

/-- The observable bookkeeping of `Net::activate`: the detached control
queue and its event fd (if any), the data queues and event fds left for the
per-pair workers, the pause-barrier size, and the number of spawned
queue-pair workers. -/
structure ActivateOutcome where
  ctrl : Option (Nat × Nat)
  dataQueues : List Nat
  dataEvts : List Nat
  barrier : Nat
  numWorkers : Nat
deriving Repr, DecidableEq

/-- The pause-barrier size chosen at construction by `Net::new_with_tap`
(net.rs line 355): `num_queues / 2 + 1`. -/
def initial_barrier (num_queues : Nat) : Nat := num_queues / 2 + 1

/-- The queue/event-fd/barrier handling of `Net::activate` (net.rs lines
481-653). If CTRL_VQ is acked and the queue count is odd, the last queue and
its event fd are removed (`remove(queue_num - 1)`) and handed to the control
worker, and `paused_sync` is replaced by a barrier of size `taps.len() + 2`;
otherwise the barrier from construction time stays. The remaining queues are
split into consecutive pairs, one worker per pair. Queues and event fds are
identified by opaque numbers; for the empty list — impossible under an odd
count — the detached queue defaults to 0. -/
def Net.activate (ctrl_vq_acked : Bool) (taps_len old_barrier : Nat)
    (queues queue_evts : List Nat) : ActivateOutcome :=
  if ctrl_vq_acked ∧ queues.length % 2 ≠ 0 then
    { ctrl := some ((queues.getLast?).getD 0, (queue_evts.getLast?).getD 0)
      dataQueues := queues.dropLast
      dataEvts := queue_evts.dropLast
      barrier := taps_len + 2
      numWorkers := queues.dropLast.length / 2 }
  else
    { ctrl := none
      dataQueues := queues
      dataEvts := queue_evts
      barrier := old_barrier
      numWorkers := queues.length / 2 }

/-- C4: whenever CTRL_VQ is acked and the number of queues provided is odd,
`Net::activate` detaches the last queue and its event fd for the dedicated
control worker, leaves the other queues for the pair workers, and replaces
the pause barrier by one of size `taps.len() + 2` (one per TAP/queue pair,
one for the control worker, one for the pausing caller). -/
theorem c4_activate_ctrl_queue (ctrl_vq_acked : Bool) (taps_len old_barrier : Nat)
    (queues evts : List Nat) (hack : ctrl_vq_acked = true)
    (hodd : queues.length % 2 = 1) :
    (Net.activate ctrl_vq_acked taps_len old_barrier queues evts).ctrl
        = some ((queues.getLast?).getD 0, (evts.getLast?).getD 0)
    ∧ (Net.activate ctrl_vq_acked taps_len old_barrier queues evts).dataQueues
        = queues.dropLast
    ∧ (Net.activate ctrl_vq_acked taps_len old_barrier queues evts).barrier
        = taps_len + 2
    ∧ (Net.activate ctrl_vq_acked taps_len old_barrier queues evts).numWorkers
        = (queues.length - 1) / 2 := by
  have hcond : (ctrl_vq_acked = true) ∧ queues.length % 2 ≠ 0 := ⟨hack, by omega⟩
  rw [Net.activate]
  rw [if_pos hcond]
  refine ⟨rfl, rfl, rfl, ?_⟩
  simp [List.length_dropLast]

/-- C4 witness: 5 queues presented with CTRL_VQ acked on a 2-TAP device (the
spec's "4 queues + CTRL_VQ" scenario): queue 5 and its event fd go to the
control worker, 2 pair workers remain, and the barrier is resized to 4. -/
theorem c4_activate_ctrl_queue_witness :
    (Net.activate true 2 3 [10, 11, 12, 13, 14] [20, 21, 22, 23, 24]).ctrl
        = some (([10, 11, 12, 13, 14].getLast?).getD 0, ([20, 21, 22, 23, 24].getLast?).getD 0)
    ∧ (Net.activate true 2 3 [10, 11, 12, 13, 14] [20, 21, 22, 23, 24]).dataQueues
        = [10, 11, 12, 13, 14].dropLast
    ∧ (Net.activate true 2 3 [10, 11, 12, 13, 14] [20, 21, 22, 23, 24]).barrier = 2 + 2
    ∧ (Net.activate true 2 3 [10, 11, 12, 13, 14] [20, 21, 22, 23, 24]).numWorkers
        = ([10, 11, 12, 13, 14].length - 1) / 2 := by
  exact c4_activate_ctrl_queue true 2 3 [10, 11, 12, 13, 14] [20, 21, 22, 23, 24]
    (by decide) (by decide)

/-- Modelled from the spec: the virtio-net config space
(`net_util::VirtioNetConfig` is an external collaborator): 6-byte MAC,
status, max_virtqueue_pairs and MTU words. `Net::state`/`set_state` copy it
verbatim, so its exact fields do not matter for the round trip. -/
structure VirtioNetConfig where
  mac : List Nat
  status : Nat
  max_virtqueue_pairs : Nat
  mtu : Nat
deriving Repr, DecidableEq

/-- `NetState` (net.rs lines 299-305): the versioned migration snapshot of
the net device. -/
structure NetState where
  avail_features : Nat
  acked_features : Nat
  config : VirtioNetConfig
  queue_size : List Nat
deriving Repr, DecidableEq

/-- The fields of `Net` (and its `VirtioCommon`) read and written by
`Net::state` and `Net::set_state` (net.rs lines 434-448), plus the device
id, which restore does not touch. -/
structure Net where
  id : String
  avail_features : Nat
  acked_features : Nat
  config : VirtioNetConfig
  queue_sizes : List Nat
deriving Repr, DecidableEq

/-- `Net::state` (net.rs lines 434-441), the body of `snapshot`. -/
def Net.state (n : Net) : NetState :=
  { avail_features := n.avail_features
    acked_features := n.acked_features
    config := n.config
    queue_size := n.queue_sizes }

/-- `Net::set_state` (net.rs lines 443-448), the body of `restore`. -/
def Net.set_state (n : Net) (state : NetState) : Net :=
  { n with
    avail_features := state.avail_features
    acked_features := state.acked_features
    config := state.config
    queue_sizes := state.queue_size }

/-- C6: restoring the net device from a state `s` and snapshotting it again
yields `s`: avail_features, acked_features, config and queue_size all read
back as written (the snapshot has no other field), and restore touches
nothing else of the device (its id is preserved). -/
theorem c6_restore_snapshot_roundtrip (n : Net) (s : NetState) :
    (Net.set_state n s).state = s ∧ (Net.set_state n s).id = n.id := by
  exact ⟨rfl, rfl⟩

end VirtioNet

namespace VhostUserNet

/-- The `epoll::Events` bitmask value of `EPOLLIN` (bit 0). -/
def EPOLLIN : Nat := 1

/-- The per-data-worker mutable flag consulted by `handle_queue`
(`VhostUserNetThread.net.rx_tap_listening`, lib.rs). -/
structure ThreadState where
  rx_tap_listening : Bool
deriving Repr, DecidableEq

/-- The error cases of `VhostUserNetBackend::handle_event` and its helpers
(lib.rs `enum Error`, restricted to the variants those functions return). -/
inductive BackendError where
  | handleEventNotEpollIn
  | handleEventUnknownEvent
  | netQueuePair
  | processCtrlQueue
deriving Repr, DecidableEq

/-- Observable actions of one `handle_queue`/`handle_ctrl_queue` dispatch:
whether `register_listener` armed the TAP, and which vring index (if any)
had `signal_used_queue` invoked. -/
structure QueueEffects where
  registeredTap : Bool
  signalledVring : Option Nat
deriving Repr, DecidableEq

/-- `VhostUserNetBackend::handle_queue` (lib.rs lines 177-225): device event
0 arms the TAP for EPOLLIN if not already listening; 1 runs
`process_tx` on vring 1 and signals it when entries were added; 2 runs
`process_rx` on vring 0 likewise; anything else is an unknown-event error.
`txResult`/`rxResult` are the values returned by the (external, therefore
spec-modelled) `NetQueuePair::process_tx`/`process_rx`; `register_listener`
is modelled as succeeding. -/
def handle_queue (st : ThreadState) (device_event : Nat)
    (txResult rxResult : Except Unit Bool) :
    Except BackendError (ThreadState × QueueEffects) :=
  match device_event with
  | 0 =>
    if !st.rx_tap_listening then
      .ok (⟨true⟩, ⟨true, none⟩)
    else
      .ok (st, ⟨false, none⟩)
  | 1 =>
    match txResult with
    | .error _ => .error .netQueuePair
    | .ok added => .ok (st, ⟨false, if added then some 1 else none⟩)
  | 2 =>
    match rxResult with
    | .error _ => .error .netQueuePair
    | .ok added => .ok (st, ⟨false, if added then some 0 else none⟩)
  | _ => .error .handleEventUnknownEvent

/-- `VhostUserNetBackend::handle_ctrl_queue` (lib.rs lines 227-253). -/
def handle_ctrl_queue (device_event : Nat) (ctrlResult : Except Unit Bool) :
    Except BackendError QueueEffects :=
  match device_event with
  | 0 =>
    match ctrlResult with
    | .error _ => .error .processCtrlQueue
    | .ok added => .ok ⟨false, if added then some 0 else none⟩
  | _ => .error .handleEventUnknownEvent

/-- `VhostUserNetBackend::handle_event` (lib.rs lines 290-306): reject any
event set other than exactly EPOLLIN, then dispatch to the control handler
when `thread_id` is the control thread and to `handle_queue` otherwise. -/
def handle_event (st : ThreadState) (device_event evset : Nat)
    (is_ctrl_thread : Bool) (txResult rxResult ctrlResult : Except Unit Bool) :
    Except BackendError (ThreadState × QueueEffects) :=
  if evset ≠ EPOLLIN then .error .handleEventNotEpollIn
  else if is_ctrl_thread then
    match handle_ctrl_queue device_event ctrlResult with
    | .error e => .error e
    | .ok eff => .ok (st, eff)
  else handle_queue st device_event txResult rxResult

/-- C8: `handle_event` errors whenever `evset` is not exactly EPOLLIN; with
EPOLLIN, a data-worker thread dispatches on `device_event`: 0 arms the TAP
exactly when it was not already listening (leaving it listening), 1 runs
`process_tx` and signals vring 1 exactly when entries were added, 2 runs
`process_rx` and signals vring 0 likewise, and any other event id is an
error. -/
theorem c8_handle_event_dispatch (st : ThreadState) (de evset : Nat)
    (txr rxr ctrlr : Except Unit Bool) (added : Bool) :
    (evset ≠ EPOLLIN →
      handle_event st de evset false txr rxr ctrlr = .error .handleEventNotEpollIn
      ∧ handle_event st de evset true txr rxr ctrlr = .error .handleEventNotEpollIn)
    ∧ handle_event st 0 EPOLLIN false txr rxr ctrlr
        = .ok (⟨true⟩, ⟨!st.rx_tap_listening, none⟩)
    ∧ handle_event st 1 EPOLLIN false (.ok added) rxr ctrlr
        = .ok (st, ⟨false, if added then some 1 else none⟩)
    ∧ handle_event st 2 EPOLLIN false txr (.ok added) ctrlr
        = .ok (st, ⟨false, if added then some 0 else none⟩)
    ∧ (3 ≤ de →
      handle_event st de EPOLLIN false txr rxr ctrlr = .error .handleEventUnknownEvent) := by
  refine ⟨fun hne => ⟨?_, ?_⟩, ?_, ?_, ?_, fun h3 => ?_⟩
  · simp [handle_event, hne]
  · simp [handle_event, hne]
  · rcases st with ⟨b⟩
    cases b <;> rfl
  · rfl
  · rfl
  · match de with
    | 0 => exact absurd h3 (by decide)
    | 1 => exact absurd h3 (by decide)
    | 2 => exact absurd h3 (by decide)
    | m + 3 => rfl

/-- C8 witness: the dispatch rules applied to a non-listening worker: an
event set of `EPOLLOUT` (4) is rejected, event 0 arms the TAP, event 1 with
entries added signals vring 1, event 2 signals vring 0, and event 5 is
unknown. -/
theorem c8_handle_event_dispatch_witness :
    (handle_event ⟨false⟩ 0 4 false (.ok true) (.ok true) (.ok true)
        = .error .handleEventNotEpollIn
      ∧ handle_event ⟨false⟩ 0 4 true (.ok true) (.ok true) (.ok true)
        = .error .handleEventNotEpollIn)
    ∧ handle_event ⟨false⟩ 0 EPOLLIN false (.ok true) (.ok true) (.ok true)
        = .ok (⟨true⟩, ⟨!(⟨false⟩ : ThreadState).rx_tap_listening, none⟩)
    ∧ handle_event ⟨false⟩ 1 EPOLLIN false (.ok true) (.ok true) (.ok true)
        = .ok (⟨false⟩, ⟨false, if true then some 1 else none⟩)
    ∧ handle_event ⟨false⟩ 2 EPOLLIN false (.ok true) (.ok true) (.ok true)
        = .ok (⟨false⟩, ⟨false, if true then some 0 else none⟩)
    ∧ handle_event ⟨false⟩ 5 EPOLLIN false (.ok true) (.ok true) (.ok true)
        = .error .handleEventUnknownEvent := by
  have hthm := c8_handle_event_dispatch ⟨false⟩ 5 4 (.ok true) (.ok true) (.ok true) true
  exact ⟨hthm.1 (by decide), hthm.2.1, hthm.2.2.1, hthm.2.2.2.1, hthm.2.2.2.2 (by decide)⟩

/-- Splitting a character list at every occurrence of a separator (empty
pieces preserved), the character-level core of the comma/equals/dot/colon
splitting below. -/
def splitOnChar (c : Char) : List Char → List (List Char)
  | [] => [[]]
  | x :: xs =>
    let r := splitOnChar c xs
    if x = c then [] :: r
    else
      match r with
      | [] => [[x]]
      | y :: ys => (x :: y) :: ys

/-- One `key=value` piece of the option string. -/
def splitKeyValue (piece : List Char) : Option (String × String) :=
  match splitOnChar '=' piece with
  | [k, v] => some (String.mk k, String.mk v)
  | _ => none

/-- The eight option keys registered by `VhostUserNetBackendConfig::parse`
(lib.rs lines 359-367). -/
def recognisedKeys : List String :=
  ["tap", "ip", "host_mac", "mask", "queue_size", "num_queues", "socket", "client"]

/-- Modelled from the spec: `option_parser::OptionParser::parse` (the
`option_parser` crate is an external collaborator): split the comma-separated
`key=value` string into pairs; a malformed piece or an unregistered key is a
parse failure. -/
def parse_options (input : String) : Option (List (String × String)) :=
  (splitOnChar ',' input.data).mapM (fun piece => do
    let kv ← splitKeyValue piece
    if recognisedKeys.contains kv.1 then some kv else none)

/-- `OptionParser::get`: the stored raw value of a key, if present. -/
def get_option (pairs : List (String × String)) (key : String) : Option String :=
  (pairs.find? (fun p => p.1 == key)).map (·.2)

/-- Decimal digits to a number; `none` on an empty or non-digit string. -/
def digitsToNat (l : List Char) : Option Nat :=
  if l = [] then none
  else l.foldlM (fun acc c => if c.isDigit then some (acc * 10 + (c.toNat - 48)) else none) 0

/-- Modelled from the spec: `usize::from_str` for `num_queues`. -/
def parseNatValue (s : String) : Option Nat :=
  match digitsToNat s.data with
  | none => none
  | some n => if n < 2 ^ 64 then some n else none

/-- Modelled from the spec: `u16::from_str` for `queue_size`. -/
def parseU16Value (s : String) : Option Nat :=
  match digitsToNat s.data with
  | none => none
  | some n => if n < 2 ^ 16 then some n else none

/-- Modelled from the spec: `Ipv4Addr::from_str` — four dot-separated
decimal octets. -/
def parseIpv4Value (s : String) : Option (Nat × Nat × Nat × Nat) :=
  match splitOnChar '.' s.data with
  | [a, b, c, d] => do
    let na ← digitsToNat a
    let nb ← digitsToNat b
    let nc ← digitsToNat c
    let nd ← digitsToNat d
    if na ≤ 255 ∧ nb ≤ 255 ∧ nc ≤ 255 ∧ nd ≤ 255 then some (na, nb, nc, nd) else none
  | _ => none

/-- A hexadecimal digit. -/
def hexDigitToNat (c : Char) : Option Nat :=
  if c.isDigit then some (c.toNat - 48)
  else if 'a' ≤ c ∧ c ≤ 'f' then some (c.toNat - 87)
  else if 'A' ≤ c ∧ c ≤ 'F' then some (c.toNat - 55)
  else none

/-- Modelled from the spec: `MacAddr::parse_str` — six colon-separated
two-digit hexadecimal octets. -/
def parseMacValue (s : String) : Option (List Nat) :=
  match splitOnChar ':' s.data with
  | [a, b, c, d, e, f] =>
    [a, b, c, d, e, f].mapM (fun g =>
      match g with
      | [h1, h2] => do
        let n1 ← hexDigitToNat h1
        let n2 ← hexDigitToNat h2
        some (n1 * 16 + n2)
      | _ => none)
  | _ => none

/-- Modelled from the spec: `option_parser::Toggle::from_str` for `client`. -/
def parseToggleValue (s : String) : Option Bool :=
  if s = "on" ∨ s = "true" then some true
  else if s = "off" ∨ s = "false" then some false
  else none

/-- The two error shapes of `VhostUserNetBackendConfig::parse`:
`Error::FailedConfigParse` and `Error::SocketParameterMissing`. Both are
fatal at startup (`start_net_backend` exits with code 1 on any parse
error). -/
inductive NetConfigError where
  | failedConfigParse
  | socketParameterMissing
deriving Repr, DecidableEq

/-- `VhostUserNetBackendConfig` (lib.rs lines 344-353). `host_mac = none`
stands for the nondeterministic `MacAddr::local_random()` default taken when
the key is absent. -/
structure VhostUserNetBackendConfig where
  ip : Nat × Nat × Nat × Nat
  host_mac : Option (List Nat)
  mask : Nat × Nat × Nat × Nat
  socket : String
  num_queues : Nat
  queue_size : Nat
  tap : Option String
  client : Bool
deriving Repr, DecidableEq

/-- The `parser.convert(key)` step for one option (lib.rs): an absent key is
`Ok(None)`; a present but unconvertible value is `FailedConfigParse`. -/
def convert_option {α : Type} (pairs : List (String × String)) (key : String)
    (f : String → Option α) : Except NetConfigError (Option α) :=
  match get_option pairs key with
  | none => .ok none
  | some v =>
    match f v with
    | none => .error .failedConfigParse
    | some a => .ok (some a)

/-- `VhostUserNetBackendConfig::parse` (lib.rs lines 356-410), with the
source's evaluation order: split into pairs, then convert `ip`, `host_mac`,
`mask`, `queue_size`, `num_queues` (each defaulting when absent), then
require `socket`, then convert `client`. -/
def VhostUserNetBackendConfig.parse (backend : String) :
    Except NetConfigError VhostUserNetBackendConfig := do
  let pairs ← match parse_options backend with
    | none => Except.error NetConfigError.failedConfigParse
    | some p => Except.ok p
  let tap := get_option pairs "tap"
  let ip := (← convert_option pairs "ip" parseIpv4Value).getD (192, 168, 100, 1)
  let host_mac ← convert_option pairs "host_mac" parseMacValue
  let mask := (← convert_option pairs "mask" parseIpv4Value).getD (255, 255, 255, 0)
  let queue_size := (← convert_option pairs "queue_size" parseU16Value).getD 256
  let num_queues := (← convert_option pairs "num_queues" parseNatValue).getD 2
  let socket ← match get_option pairs "socket" with
    | none => Except.error NetConfigError.socketParameterMissing
    | some s => Except.ok s
  let client := (← convert_option pairs "client" parseToggleValue).getD false
  Except.ok
    { ip := ip, host_mac := host_mac, mask := mask, socket := socket,
      num_queues := num_queues, queue_size := queue_size, tap := tap,
      client := client }

/-- The claim C7 as stated: every option string without a socket key fails
with the socket-parameter-missing error. -/
def socketMissingAlwaysReported : Prop :=
  ∀ s : String,
    (∀ pairs, parse_options s = some pairs → get_option pairs "socket" = none) →
    VhostUserNetBackendConfig.parse s = .error .socketParameterMissing

/-- C7 counterexample (claim as stated): `"num_queues=abc"` has no socket
key, yet parsing fails with `FailedConfigParse` — the unconvertible
`num_queues` value is reported before the socket check — not with
`SocketParameterMissing`. -/
theorem c7_counterexample : ¬ socketMissingAlwaysReported := by
  intro hcl
  have hns : ∀ pairs, parse_options "num_queues=abc" = some pairs →
      get_option pairs "socket" = none := by
    intro pairs hp
    have he : parse_options "num_queues=abc" = some [("num_queues", "abc")] := by decide
    rw [he] at hp
    injection hp with h
    subst h
    decide
  have hcontra := hcl "num_queues=abc" hns
  rw [show VhostUserNetBackendConfig.parse "num_queues=abc"
      = .error .failedConfigParse from rfl] at hcontra
  simp at hcontra

/-- C7, amended: parsing `"socket=/tmp/s,num_queues=4,queue_size=512"`
yields `num_queues = 4` and `queue_size = 512` with the defaults
`ip = 192.168.100.1`, `mask = 255.255.255.0`, `client = false` (and the
random host MAC taken when the key is absent); and any option string that
splits into recognised `key=value` pairs, has no `socket` key, and whose
`ip`, `host_mac`, `mask`, `queue_size` and `num_queues` values (when
present) convert successfully, fails with the socket-parameter-missing
error, which is fatal at startup. -/
theorem c7_parse_defaults_and_socket (s : String) (pairs : List (String × String))
    (oip omask : Option (Nat × Nat × Nat × Nat)) (omac : Option (List Nat))
    (oqs onq : Option Nat)
    (hp : parse_options s = some pairs)
    (hip : convert_option pairs "ip" parseIpv4Value = .ok oip)
    (hmac : convert_option pairs "host_mac" parseMacValue = .ok omac)
    (hmask : convert_option pairs "mask" parseIpv4Value = .ok omask)
    (hqs : convert_option pairs "queue_size" parseU16Value = .ok oqs)
    (hnq : convert_option pairs "num_queues" parseNatValue = .ok onq)
    (hsock : get_option pairs "socket" = none) :
    VhostUserNetBackendConfig.parse s = .error .socketParameterMissing
    ∧ VhostUserNetBackendConfig.parse "socket=/tmp/s,num_queues=4,queue_size=512"
      = .ok { ip := (192, 168, 100, 1), host_mac := none, mask := (255, 255, 255, 0),
              socket := "/tmp/s", num_queues := 4, queue_size := 512,
              tap := none, client := false } := by
  constructor
  · simp only [VhostUserNetBackendConfig.parse, hp, hip, hmac, hmask, hqs, hnq, hsock,
      Bind.bind, Except.bind]
  · rfl

/-- C7 witness: the amended theorem applied to `"num_queues=4"`, an option
string with convertible values and no socket key. -/
theorem c7_parse_defaults_and_socket_witness :
    VhostUserNetBackendConfig.parse "num_queues=4" = .error .socketParameterMissing
    ∧ VhostUserNetBackendConfig.parse "socket=/tmp/s,num_queues=4,queue_size=512"
      = .ok { ip := (192, 168, 100, 1), host_mac := none, mask := (255, 255, 255, 0),
              socket := "/tmp/s", num_queues := 4, queue_size := 512,
              tap := none, client := false } := by
  exact c7_parse_defaults_and_socket "num_queues=4" [("num_queues", "4")]
    none none none none (some 4)
    (by decide) (by rfl) (by rfl) (by rfl) (by rfl) (by rfl) (by decide)

end VhostUserNet
